import Mathlib

/-!
Shallow embedding of the power-logger repository's telemetry pipeline
(package `logger`, file logger.go, plus the energy counter filter whose
implementation file is absent from the sources and is therefore modelled
from the specification).

Go `float64` values are modelled as exact rationals (ℚ): every constant
appearing in the code and in the properties below (scales 1/10/100/1000,
register values below 2^32, test inputs such as 10.5) is exactly
representable, and the properties are arithmetic-order properties that do
not hinge on rounding.  Go slice accesses that would panic are modelled
as `Option.none`.  The modbus client collaborator is modelled by the value
its `ReadHoldingRegisters` call returns: either an error or a byte buffer.
-/

namespace PowerLogger

/-! ### Register codec (logger.go, get16BitValue / get32BitEnergy) -/

/-- Big-endian 16-bit unsigned integer at a byte offset
(`binary.BigEndian.Uint16(data[offset:offset+2])`). -/
def uint16At (data : List Nat) (offset : Nat) : Nat :=
  256 * data.getD offset 0 + data.getD (offset + 1) 0

/-- Big-endian 32-bit unsigned integer at a byte offset
(`binary.BigEndian.Uint32(data[offset:offset+4])`). -/
def uint32At (data : List Nat) (offset : Nat) : Nat :=
  16777216 * data.getD offset 0 + 65536 * data.getD (offset + 1) 0 +
    256 * data.getD (offset + 2) 0 + data.getD (offset + 3) 0

/-- `get16BitValue(data, offset, scale)`: reads `data[offset:offset+2]`
big-endian and divides by `scale`.  A Go slice expression whose upper bound
exceeds the buffer length panics; that is modelled as `none`. -/
def get16BitValue (data : List Nat) (offset : Nat) (scale : ℚ) : Option ℚ :=
  if offset + 2 ≤ data.length then some ((uint16At data offset : ℚ) / scale) else none

/-- `get32BitEnergy(data, offset, scale)`: reads `data[offset:offset+4]`
big-endian and divides by `scale`; out-of-range access modelled as `none`. -/
def get32BitEnergy (data : List Nat) (offset : Nat) (scale : ℚ) : Option ℚ :=
  if offset + 4 ≤ data.length then some ((uint32At data offset : ℚ) / scale) else none

/-! ### Register offsets and constants (logger.go, const block) -/

def VoltageReg : Nat := 0
def CurrentReg : Nat := 2
def FrequencyReg : Nat := 4
def ActivePowerReg : Nat := 6
def ReactivePowerReg : Nat := 8
def ApparentPowerReg : Nat := 10
def PowerFactorReg : Nat := 12
def ActiveEnergyReg : Nat := 14
def ReactiveEnergyReg : Nat := 34
def TsReg : Nat := 54
def TimeReg : Nat := 66
def TemperatureReg : Nat := 74

def readSize : Nat := 39
def pollRateSec : Nat := 10

/-! ### Metric set (logger.go, loggerGauge / generateGauges) -/

/-- The function-valued field `valueFunc` of `loggerGauge` only ever holds
`get16BitValue` or `get32BitEnergy`; it is embedded as a tagged variant. -/
inductive ValueFunc
  | get16
  | get32
  deriving DecidableEq

/-- Static part of `loggerGauge`: the gauge name and the decode parameters.
The `prometheus.Gauge` handle itself is represented by position in the
gauge-value list of `LoggerState`. -/
structure LoggerGauge where
  name : String
  register : Nat
  scale : ℚ
  valueFunc : ValueFunc
  sticky : Bool
  deriving DecidableEq

/-- `generateGauges` of logger.go: the fixed ten-entry metric table, in
source order (names, registers, scales, decode function and sticky flag
exactly as in the source; `sticky` is set only on the two energy gauges). -/
def generateGauges : List LoggerGauge :=
  [⟨"mains_voltage_v", VoltageReg, 10, .get16, false⟩,
   ⟨"mains_current_a", CurrentReg, 10, .get16, false⟩,
   ⟨"mains_frequency_hz", FrequencyReg, 10, .get16, false⟩,
   ⟨"mains_active_power_w", ActivePowerReg, 1, .get16, false⟩,
   ⟨"mains_reactive_power_var", ReactivePowerReg, 1, .get16, false⟩,
   ⟨"mains_appartent_power_va", ApparentPowerReg, 1, .get16, false⟩,
   ⟨"mains_power_factor_pf", PowerFactorReg, 1000, .get16, false⟩,
   ⟨"mains_active_energy_kwh", ActiveEnergyReg, 100, .get32, true⟩,
   ⟨"mains_reactive_energy_kvarh", ReactiveEnergyReg, 100, .get32, true⟩,
   ⟨"mains_device_temperature_c", TemperatureReg, 1, .get16, false⟩]

/-- Mutable state of a `Logger`: the current value of each of the ten
gauges (in `generateGauges` order) and the value of the
`sensor_read_errors_count` gauge. -/
structure LoggerState where
  gaugeValues : List ℚ
  readFailures : ℚ
  deriving DecidableEq

/-- `g.valueFunc(res, g.register, g.scale)` for one gauge. -/
def decodeGauge (g : LoggerGauge) (res : List Nat) : Option ℚ :=
  match g.valueFunc with
  | .get16 => get16BitValue res g.register g.scale
  | .get32 => get32BitEnergy res g.register g.scale

/-- The decode loop of `update`: each gauge's value function applied to the
frame; `none` if any single access would panic. -/
def decodeAll (res : List Nat) : List LoggerGauge → Option (List ℚ)
  | [] => some []
  | g :: gs =>
    match decodeGauge g res, decodeAll res gs with
    | some v, some vs => some (v :: vs)
    | _, _ => none

/-- `errorEvent` of logger.go: add 1 to `readFailures`, set every
non-sticky gauge to 0, leave sticky gauges untouched. -/
def errorEvent (s : LoggerState) : LoggerState :=
  ⟨(generateGauges.zip s.gaugeValues).map (fun p => if p.1.sticky then p.2 else 0),
   s.readFailures + 1⟩

/-- `Logger.update` of logger.go.  The argument is the result of the
transport call `l.client.ReadHoldingRegisters(0, readSize)`.  The Go method
returns an error and mutates the gauges; here it returns the error value
together with the new state.  The outer `Option` is `none` exactly when the
Go code would panic (an out-of-range decode), which the length guard makes
unreachable. -/
def update (readResult : Except String (List Nat)) (s : LoggerState) :
    Option (Except String Unit × LoggerState) :=
  match readResult with
  | .error e => some (.error ("could not read values: " ++ e), errorEvent s)
  | .ok res =>
    if res.length ≠ readSize * 2 then
      some (.error ("invalid read size: " ++ toString res.length), errorEvent s)
    else
      match decodeAll res generateGauges with
      | some vs => some (.ok (), ⟨vs, s.readFailures⟩)
      | none => none

/-! ### Energy counter filter

Modelled from the spec: the repository's `energyFilter` implementation file
is absent from the sources (only its test `Test_energyFilter_filter` is
present), so the state and the `filter` method follow §4.2 of the
specification word for word.  Timestamps are rationals.  The numeric
relationship between the constructor argument of `newEnergyFilter` and the
internal rate limit is explicitly left open by the spec (§9); the model
therefore takes the rate limit itself as the constructor argument. -/

/-- Modelled from the spec: Counter Filter State (§3) — `lastAccepted`
(undefined until the first observation), `lastAcceptTime`, `rateLimit`. -/
structure energyFilter where
  rateLimit : ℚ
  lastAccepted : Option ℚ
  lastAcceptTime : ℚ
  deriving DecidableEq

/-- Modelled from the spec: a fresh filter with no accepted observation. -/
def newEnergyFilter (rateLimit : ℚ) : energyFilter :=
  ⟨rateLimit, none, 0⟩

/-- Modelled from the spec: `filter(candidate, now)` of §4.2, rules 1–5 in
order.  Returns the published value together with the new filter state. -/
def energyFilter.filter (f : energyFilter) (candidate now : ℚ) : ℚ × energyFilter :=
  match f.lastAccepted with
  | none => (candidate, ⟨f.rateLimit, some candidate, now⟩)
  | some last =>
    if candidate ≤ 0 then (last, f)
    else if candidate < last then (last, f)
    else if candidate = last then (last, ⟨f.rateLimit, some last, now⟩)
    else if candidate - last ≤ f.rateLimit * (now - f.lastAcceptTime) then
      (candidate, ⟨f.rateLimit, some candidate, now⟩)
    else (last, f)

/-- The values returned by a filter over a sequence of
(candidate, timestamp) calls, threading the state. -/
def energyFilter.outputs (f : energyFilter) : List (ℚ × ℚ) → List ℚ
  | [] => []
  | (c, t) :: rest => (f.filter c t).1 :: ((f.filter c t).2).outputs rest

/-! ### Constructor registration sequence (logger.go, New)

`New` creates the ten gauges and the error counter and registers each with
the process-wide prometheus registry in source order, returning on the
first registration error without unregistering anything.  The registry is
modelled as the list of registered (name, device label) pairs — prometheus
identifies a collector by its name and const-label values, which is why the
repository's tests can run `New` three times with distinct device names. -/

/-- The registration loop of `New`: try to register each name in order;
on a duplicate, stop and return the error together with the registry as it
stands at that moment (no rollback). -/
def registerAll (dev : String) : List String → List (String × String) →
    Except String Unit × List (String × String)
  | [], reg => (.ok (), reg)
  | n :: rest, reg =>
    if (n, dev) ∈ reg then (.error ("could not register gauge: " ++ n), reg)
    else registerAll dev rest (reg ++ [(n, dev)])

/-- The names `New` registers, in source order: the ten gauges of
`generateGauges`, then the `sensor_read_errors_count` error counter. -/
def newRegistrationNames : List String :=
  generateGauges.map (fun g => g.name) ++ ["sensor_read_errors_count"]

/-- The registration effect of `New(client, deviceName)` on the global
registry: `.ok` means `New` returned a usable `*Logger`; `.error` means it
returned `nil` and the error. -/
def New (deviceName : String) (reg : List (String × String)) :
    Except String Unit × List (String × String) :=
  registerAll deviceName newRegistrationNames reg

/-! ### Scheduler / lifecycle (logger.go, Poller and Close)

An interleaving model of the code after `Poller()` has returned: the
background goroutine loops over `select { case <-ticker.C; case <-l.stop }`,
and `Close()` runs `close(l.stop); l.wg.Wait()`.  `Poller` itself executes
`l.wg.Add(1)` and a deferred `l.wg.Done()` that fires when `Poller`
returns — immediately after the `go func()` statement — which is captured
by `wgCount` being `0 + 1 - 1` in the post-`Poller` state. -/

/-- Control state of the background polling goroutine. -/
inductive GoState
  | inSelect
  | inUpdate
  | exited
  deriving DecidableEq

/-- Global state of the lifecycle model. -/
structure SchedState where
  goroutine : GoState
  stopClosed : Bool
  wgCount : Nat
  closeCalled : Bool
  closeReturned : Bool
  tickPending : Bool
  deriving DecidableEq

/-- State right after `Poller()` has returned: the goroutine sits in its
`select`, and the WaitGroup counter is back to zero because the deferred
`wg.Done()` ran when `Poller` returned (before any `Close`). -/
def pollerStart : SchedState :=
  ⟨.inSelect, false, 0 + 1 - 1, false, false, false⟩

/-- One interleaved step of the lifecycle: the ticker firing, the
goroutine's `select` choosing a ready case (Go picks nondeterministically
when several are ready), an `update` call finishing, `close(l.stop)`, and
`l.wg.Wait()` returning (which it may do whenever the counter is zero). -/
inductive SchedStep : SchedState → SchedState → Prop
  | tick (s : SchedState) : s.goroutine ≠ .exited →
      SchedStep s { s with tickPending := true }
  | selectTick (s : SchedState) : s.goroutine = .inSelect → s.tickPending = true →
      SchedStep s { s with goroutine := .inUpdate, tickPending := false }
  | selectStop (s : SchedState) : s.goroutine = .inSelect → s.stopClosed = true →
      SchedStep s { s with goroutine := .exited }
  | updateDone (s : SchedState) : s.goroutine = .inUpdate →
      SchedStep s { s with goroutine := .inSelect }
  | closeSignal (s : SchedState) : s.closeCalled = false →
      SchedStep s { s with closeCalled := true, stopClosed := true }
  | closeWait (s : SchedState) : s.closeCalled = true → s.closeReturned = false →
      s.wgCount = 0 → SchedStep s { s with closeReturned := true }

/-- Reachability in the lifecycle model. -/
def SchedReachable : SchedState → SchedState → Prop :=
  Relation.ReflTransGen SchedStep

/-! ### Concrete frames used in witnesses and counterexamples -/

/-- A 78-byte frame whose active-energy field (bytes 14–17) holds the raw
value 1000, i.e. decodes to 10.00 kWh at scale 100; all other bytes zero. -/
def frame1 : List Nat := List.replicate 14 0 ++ [0, 0, 3, 232] ++ List.replicate 60 0

/-- The all-zero 78-byte frame. -/
def frame2 : List Nat := List.replicate 78 0

/-- A 78-byte frame equal to `frame2` except at byte 20, which lies in the
time-binned sub-record area that no configured metric decodes. -/
def frame3 : List Nat := List.replicate 20 0 ++ [99] ++ List.replicate 57 0

/-! ## Helper lemmas -/

/-- Closed form of a successful `update` on a length-validated frame: the
call returns no error, leaves `readFailures` unchanged, and sets each gauge
to the raw decoded value of its register at its scale (no filtering). -/
theorem update_ok_eq (res : List Nat) (vals : List ℚ) (f : ℚ) (h : res.length = 78) :
    update (.ok res) ⟨vals, f⟩ =
      some (.ok (), ⟨[(uint16At res 0 : ℚ) / 10, (uint16At res 2 : ℚ) / 10,
        (uint16At res 4 : ℚ) / 10, (uint16At res 6 : ℚ) / 1, (uint16At res 8 : ℚ) / 1,
        (uint16At res 10 : ℚ) / 1, (uint16At res 12 : ℚ) / 1000,
        (uint32At res 14 : ℚ) / 100, (uint32At res 34 : ℚ) / 100,
        (uint16At res 74 : ℚ) / 1], f⟩) := by
  simp [update, readSize, h, decodeAll, decodeGauge, generateGauges,
    get16BitValue, get32BitEnergy, VoltageReg, CurrentReg, FrequencyReg,
    ActivePowerReg, ReactivePowerReg, ApparentPowerReg, PowerFactorReg,
    ActiveEnergyReg, ReactiveEnergyReg, TemperatureReg]

/-! ## Claim theorems -/

/-- Claim C1: when the transport's `ReadHoldingRegisters` returns an error,
`update()` returns an error, the `sensor_read_errors_count` gauge increases
by exactly one, every non-sticky gauge (voltage, current, frequency,
active/reactive/apparent power, power factor, temperature — positions
0–6 and 9) is set to zero, and the two sticky gauges (active energy at
position 7, reactive energy at position 8) keep their previous values. -/
theorem spec_C1 (e : String) (v0 v1 v2 v3 v4 v5 v6 v7 v8 v9 f : ℚ) :
    update (.error e) ⟨[v0, v1, v2, v3, v4, v5, v6, v7, v8, v9], f⟩ =
      some (.error ("could not read values: " ++ e),
        ⟨[0, 0, 0, 0, 0, 0, 0, v7, v8, 0], f + 1⟩) := by
  simp [update, errorEvent, generateGauges]

/-- Witness for C1 at concrete gauge values. -/
theorem spec_C1_witness :
    update (.error "error") ⟨[1, 2, 3, 4, 5, 6, 7, 8, 9, 11], 2⟩ =
      some (.error ("could not read values: " ++ "error"),
        ⟨[0, 0, 0, 0, 0, 0, 0, 8, 9, 0], 2 + 1⟩) :=
  spec_C1 "error" 1 2 3 4 5 6 7 8 9 11 2

/-- Claim C5: when the transport returns a buffer whose length is not 78
bytes, `update()` returns a length-mismatch error, increments the error
counter, zeroes the non-sticky gauges and leaves the sticky gauges alone;
the resulting state depends only on the buffer's length, never on its
contents, so nothing is decoded from the buffer. -/
theorem spec_C5 (res : List Nat) (v0 v1 v2 v3 v4 v5 v6 v7 v8 v9 f : ℚ)
    (h : res.length ≠ 78) :
    update (.ok res) ⟨[v0, v1, v2, v3, v4, v5, v6, v7, v8, v9], f⟩ =
      some (.error ("invalid read size: " ++ toString res.length),
        ⟨[0, 0, 0, 0, 0, 0, 0, v7, v8, 0], f + 1⟩) := by
  simp [update, readSize, h, errorEvent, generateGauges]

/-- Witness for C5 at the repository's own test input, a 1-byte buffer. -/
theorem spec_C5_witness :
    ([5] : List Nat).length ≠ 78 ∧
      update (.ok [5]) ⟨[1, 2, 3, 4, 5, 6, 7, 8, 9, 11], 2⟩ =
        some (.error ("invalid read size: " ++ toString ([5] : List Nat).length),
          ⟨[0, 0, 0, 0, 0, 0, 0, 8, 9, 0], 2 + 1⟩) :=
  ⟨by decide, spec_C5 [5] 1 2 3 4 5 6 7 8 9 11 2 (by decide)⟩

/-- Claim C4 (counterexample): the claim asserts that the sticky
cumulative-energy metrics carry a counter filter and that `update()` sets
their gauges to the filter's result.  In the source, `loggerGauge` has no
filter field and `update` sets every gauge to the raw decoded value.
Concretely: after a successful update whose frame decodes active energy 10
(so a filter, had one been attached as the claim states, would have
`lastAccepted = 10`), a second successful update of an all-zero frame
publishes 0 for the active-energy gauge, while the claimed filter pass
would reject the candidate 0 and publish 10. -/
theorem spec_C4_counterexample :
    update (.ok frame1) ⟨List.replicate 10 0, 0⟩ =
        some (.ok (), ⟨[0, 0, 0, 0, 0, 0, 0, 10, 0, 0], 0⟩) ∧
      update (.ok frame2) ⟨[0, 0, 0, 0, 0, 0, 0, 10, 0, 0], 0⟩ =
        some (.ok (), ⟨[0, 0, 0, 0, 0, 0, 0, 0, 0, 0], 0⟩) ∧
      ((energyFilter.mk 100 (some 10) 0).filter 0 10).1 = 10 ∧ (0 : ℚ) ≠ 10 := by
  refine ⟨?_, ?_, by norm_num [energyFilter.filter], by norm_num⟩
  · rw [update_ok_eq frame1 _ 0 rfl]
    norm_num [show uint16At frame1 0 = 0 from rfl, show uint16At frame1 2 = 0 from rfl,
      show uint16At frame1 4 = 0 from rfl, show uint16At frame1 6 = 0 from rfl,
      show uint16At frame1 8 = 0 from rfl, show uint16At frame1 10 = 0 from rfl,
      show uint16At frame1 12 = 0 from rfl, show uint32At frame1 14 = 1000 from rfl,
      show uint32At frame1 34 = 0 from rfl, show uint16At frame1 74 = 0 from rfl]
  · rw [update_ok_eq frame2 _ 0 rfl]
    norm_num [show uint16At frame2 0 = 0 from rfl, show uint16At frame2 2 = 0 from rfl,
      show uint16At frame2 4 = 0 from rfl, show uint16At frame2 6 = 0 from rfl,
      show uint16At frame2 8 = 0 from rfl, show uint16At frame2 10 = 0 from rfl,
      show uint16At frame2 12 = 0 from rfl, show uint32At frame2 14 = 0 from rfl,
      show uint32At frame2 34 = 0 from rfl, show uint16At frame2 74 = 0 from rfl]

/-- Claim C4 (amended): for every 78-byte frame returned with nil error,
`update()` returns nil, leaves the error counter unchanged, and sets every
gauge directly to its raw decoded value; no metric descriptor carries a
filter, so no filtering is applied to any decoded value. -/
theorem spec_C4_amended (res : List Nat) (vals : List ℚ) (f : ℚ) (h : res.length = 78) :
    update (.ok res) ⟨vals, f⟩ =
      some (.ok (), ⟨[(uint16At res 0 : ℚ) / 10, (uint16At res 2 : ℚ) / 10,
        (uint16At res 4 : ℚ) / 10, (uint16At res 6 : ℚ) / 1, (uint16At res 8 : ℚ) / 1,
        (uint16At res 10 : ℚ) / 1, (uint16At res 12 : ℚ) / 1000,
        (uint32At res 14 : ℚ) / 100, (uint32At res 34 : ℚ) / 100,
        (uint16At res 74 : ℚ) / 1], f⟩) :=
  update_ok_eq res vals f h

/-- Witness for the amended C4 at the frame `frame1`. -/
theorem spec_C4_witness :
    frame1.length = 78 ∧
      update (.ok frame1) ⟨[1, 2, 3, 4, 5, 6, 7, 8, 9, 11], 5⟩ =
        some (.ok (), ⟨[(uint16At frame1 0 : ℚ) / 10, (uint16At frame1 2 : ℚ) / 10,
          (uint16At frame1 4 : ℚ) / 10, (uint16At frame1 6 : ℚ) / 1,
          (uint16At frame1 8 : ℚ) / 1, (uint16At frame1 10 : ℚ) / 1,
          (uint16At frame1 12 : ℚ) / 1000, (uint32At frame1 14 : ℚ) / 100,
          (uint32At frame1 34 : ℚ) / 100, (uint16At frame1 74 : ℚ) / 1], 5⟩) :=
  ⟨rfl, spec_C4_amended frame1 [1, 2, 3, 4, 5, 6, 7, 8, 9, 11] 5 rfl⟩

/-- Claim C9: noninterference of unused frame fields — two 78-byte frames
that agree on the decoded byte ranges (bytes 0–17, 34–37 and 74–75)
produce identical `update` results; the time-binned sub-records and
device-clock bytes in between have no effect on any published value. -/
theorem spec_C9 (fa fb : List Nat) (s : LoggerState)
    (ha : fa.length = 78) (hb : fb.length = 78)
    (hag : ∀ i : Nat, (i ≤ 17 ∨ (34 ≤ i ∧ i ≤ 37) ∨ (74 ≤ i ∧ i ≤ 75)) →
      fa.getD i 0 = fb.getD i 0) :
    update (.ok fa) s = update (.ok fb) s := by
  obtain ⟨vals, f⟩ := s
  rw [update_ok_eq fa vals f ha, update_ok_eq fb vals f hb]
  have h16 : ∀ o : Nat, o + 1 ≤ 17 ∨ (74 ≤ o ∧ o + 1 ≤ 75) →
      uint16At fa o = uint16At fb o := by
    intro o ho
    unfold uint16At
    rw [hag o (by omega), hag (o + 1) (by omega)]
  have h32 : ∀ o : Nat, o + 3 ≤ 17 ∨ (34 ≤ o ∧ o + 3 ≤ 37) →
      uint32At fa o = uint32At fb o := by
    intro o ho
    unfold uint32At
    rw [hag o (by omega), hag (o + 1) (by omega), hag (o + 2) (by omega),
      hag (o + 3) (by omega)]
  rw [h16 0 (by omega), h16 2 (by omega), h16 4 (by omega), h16 6 (by omega),
    h16 8 (by omega), h16 10 (by omega), h16 12 (by omega), h16 74 (by omega),
    h32 14 (by omega), h32 34 (by omega)]

/-- Witness for C9: the all-zero frame and the frame with byte 20 set to 99
(inside the unused time-binned area) yield identical `update` results. -/
theorem spec_C9_witness :
    frame2.length = 78 ∧ frame3.length = 78 ∧
      update (.ok frame2) ⟨[1, 2, 3, 4, 5, 6, 7, 8, 9, 11], 0⟩ =
        update (.ok frame3) ⟨[1, 2, 3, 4, 5, 6, 7, 8, 9, 11], 0⟩ :=
  ⟨rfl, rfl, spec_C9 frame2 frame3 ⟨[1, 2, 3, 4, 5, 6, 7, 8, 9, 11], 0⟩ rfl rfl
    (by
      intro i hi
      have h75 : i ≤ 75 := by omega
      interval_cases i <;> first | rfl | omega)⟩

/-- Claim C7: the codec is safe under the length precondition.
`get16BitValue` succeeds exactly when `offset+2` fits in the frame and its
result depends only on bytes `[offset, offset+2)`; likewise
`get32BitEnergy` with `offset+4`.  Once `update` has validated the frame
length of 78 bytes, every decode of the configured metric table is in
bounds, so the decode loop cannot fault (`update` never returns the
panic value `none` on such a frame). -/
theorem spec_C7 :
    (∀ (res : List Nat) (o : Nat) (sc : ℚ),
      (get16BitValue res o sc).isSome = true ↔ o + 2 ≤ res.length) ∧
    (∀ (res : List Nat) (o : Nat) (sc : ℚ),
      (get32BitEnergy res o sc).isSome = true ↔ o + 4 ≤ res.length) ∧
    (∀ (ra rb : List Nat) (o : Nat) (sc : ℚ), ra.length = rb.length →
      (∀ i : Nat, o ≤ i → i < o + 2 → ra.getD i 0 = rb.getD i 0) →
      get16BitValue ra o sc = get16BitValue rb o sc) ∧
    (∀ (ra rb : List Nat) (o : Nat) (sc : ℚ), ra.length = rb.length →
      (∀ i : Nat, o ≤ i → i < o + 4 → ra.getD i 0 = rb.getD i 0) →
      get32BitEnergy ra o sc = get32BitEnergy rb o sc) ∧
    (∀ res : List Nat, res.length = 78 →
      (decodeAll res generateGauges).isSome = true) ∧
    (∀ (res : List Nat) (s : LoggerState), res.length = 78 →
      update (.ok res) s ≠ none) := by
  refine ⟨?_, ?_, ?_, ?_, ?_, ?_⟩
  · intro res o sc
    unfold get16BitValue
    split <;> simp_all
  · intro res o sc
    unfold get32BitEnergy
    split <;> simp_all
  · intro ra rb o sc hlen hag
    unfold get16BitValue uint16At
    rw [hlen, hag o (by omega) (by omega), hag (o + 1) (by omega) (by omega)]
  · intro ra rb o sc hlen hag
    unfold get32BitEnergy uint32At
    rw [hlen, hag o (by omega) (by omega), hag (o + 1) (by omega) (by omega),
      hag (o + 2) (by omega) (by omega), hag (o + 3) (by omega) (by omega)]
  · intro res h
    simp [decodeAll, decodeGauge, generateGauges, get16BitValue, get32BitEnergy, h,
      VoltageReg, CurrentReg, FrequencyReg, ActivePowerReg, ReactivePowerReg,
      ApparentPowerReg, PowerFactorReg, ActiveEnergyReg, ReactiveEnergyReg,
      TemperatureReg]
  · intro res s h
    obtain ⟨vals, f⟩ := s
    rw [update_ok_eq res vals f h]
    simp

/-- Witness for C7 at concrete inputs: a 2-byte buffer decodes, the two
frames `frame2`/`frame3` of equal length agreeing on bytes 0–1 decode 16-bit
values equally at offset 0, and the validated all-zero frame decodes fully. -/
theorem spec_C7_witness :
    ((get16BitValue [1, 16] 0 1).isSome = true ↔ 0 + 2 ≤ ([1, 16] : List Nat).length) ∧
      get16BitValue frame2 0 10 = get16BitValue frame3 0 10 ∧
      (decodeAll frame2 generateGauges).isSome = true ∧
      update (.ok frame2) ⟨[1, 2, 3, 4, 5, 6, 7, 8, 9, 11], 0⟩ ≠ none :=
  ⟨spec_C7.1 [1, 16] 0 1,
   spec_C7.2.2.1 frame2 frame3 0 10 rfl (by intro i h1 h2; interval_cases i <;> rfl),
   spec_C7.2.2.2.2.1 frame2 rfl,
   spec_C7.2.2.2.2.2 frame2 ⟨[1, 2, 3, 4, 5, 6, 7, 8, 9, 11], 0⟩ rfl⟩

/-- Claim C6: round-trip codec.  For every 16-bit unsigned `v` and scale
`s > 0`, decoding the 2-byte big-endian buffer holding `v` yields `v / s`,
and for every 32-bit unsigned `w`, decoding the 4-byte big-endian buffer
holding `w` yields `w / s` (divisions are exact in the rational model). -/
theorem spec_C6 (v w : Nat) (sc : ℚ) (hv : v < 65536) (hw : w < 4294967296)
    (hs : 0 < sc) :
    get16BitValue [v / 256, v % 256] 0 sc = some ((v : ℚ) / sc) ∧
      get32BitEnergy [w / 16777216, w / 65536 % 256, w / 256 % 256, w % 256] 0 sc =
        some ((w : ℚ) / sc) := by
  constructor
  · have h16 : uint16At [v / 256, v % 256] 0 = v := by
      unfold uint16At
      simp [List.getD]
      omega
    simp [get16BitValue, h16]
  · have h32 : uint32At [w / 16777216, w / 65536 % 256, w / 256 % 256, w % 256] 0 = w := by
      unfold uint32At
      simp [List.getD]
      omega
    simp [get32BitEnergy, h32]

/-- Witness for C6 at the repository's own test vectors: bytes {0x01,0x10}
give 272 at scale 1, and bytes {0x00,0x01,0x02,0x10} give 66064 at scale 1;
at scale 100 the same buffers give 2.72 and 660.64. -/
theorem spec_C6_witness :
    get16BitValue [272 / 256, 272 % 256] 0 100 = some ((272 : ℚ) / 100) ∧
      get32BitEnergy [66064 / 16777216, 66064 / 65536 % 256, 66064 / 256 % 256,
        66064 % 256] 0 100 = some ((66064 : ℚ) / 100) :=
  spec_C6 272 66064 100 (by decide) (by decide) (by norm_num)

/-- After any filter call the state's `lastAccepted` is defined and equals
the value the call returned. -/
theorem filter_post_lastAccepted (f : energyFilter) (c t : ℚ) :
    ((f.filter c t).2).lastAccepted = some ((f.filter c t).1) := by
  obtain ⟨rl, la, lt⟩ := f
  cases la with
  | none => rfl
  | some last =>
    simp only [energyFilter.filter]
    split_ifs <;> rfl

/-- A filter call never lowers `lastAccepted`: the returned value is at
least the previously accepted one. -/
theorem filter_mono (f : energyFilter) (last c t : ℚ) (h : f.lastAccepted = some last) :
    last ≤ (f.filter c t).1 := by
  obtain ⟨rl, la, lt⟩ := f
  cases h
  simp only [energyFilter.filter]
  split_ifs with h1 h2 h3 h4 <;> simp <;> linarith

/-- The values returned over any call sequence are non-decreasing. -/
theorem outputs_chain (f : energyFilter) (l : List (ℚ × ℚ)) :
    List.Chain' (· ≤ ·) (f.outputs l) := by
  induction l generalizing f with
  | nil => simp [energyFilter.outputs]
  | cons p rest ih =>
    obtain ⟨c, t⟩ := p
    simp only [energyFilter.outputs]
    rw [List.chain'_cons']
    refine ⟨?_, ih _⟩
    intro b hb
    cases rest with
    | nil => simp [energyFilter.outputs] at hb
    | cons q r2 =>
      obtain ⟨c2, t2⟩ := q
      simp only [energyFilter.outputs, List.head?_cons, Option.mem_def,
        Option.some.injEq] at hb
      subst hb
      exact filter_mono _ _ c2 t2 (filter_post_lastAccepted f c t)

/-- Claim C2 (counterexample): the claim asserts that whenever
`lastAccepted` is defined and `candidate > lastAccepted`, the candidate is
accepted exactly when `candidate - lastAccepted ≤ rateLimit * elapsed`.
This ignores the zero-rejection rule, which fires first: with
`lastAccepted = -1` (reachable, since the first call accepts
unconditionally), candidate `0 > -1` and delta `1` within the budget
`100 * 10`, the filter still rejects and returns `-1` unchanged, whereas
the claim requires it to accept and return `0`. -/
theorem spec_C2_counterexample :
    (energyFilter.mk 100 (some (-1)) 0).filter 0 10 =
        (-1, energyFilter.mk 100 (some (-1)) 0) ∧
      (-1 : ℚ) < 0 ∧ (0 : ℚ) - (-1) ≤ 100 * (10 - 0) ∧ ((-1 : ℚ) ≠ 0) :=
  ⟨by norm_num [energyFilter.filter], by norm_num, by norm_num, by norm_num⟩

/-- Claim C2 (amended): for every filter state with `lastAccepted` defined
and every call with `candidate > lastAccepted` and `candidate > 0`, the
candidate is accepted (state updated, candidate returned) exactly when
`candidate - lastAccepted ≤ rateLimit * (now - lastAcceptTime)`; otherwise
the old `lastAccepted` is returned and the state is unchanged. -/
theorem spec_C2 (f : energyFilter) (last c t : ℚ) (h : f.lastAccepted = some last)
    (hlt : last < c) (hpos : 0 < c) :
    (c - last ≤ f.rateLimit * (t - f.lastAcceptTime) →
      f.filter c t = (c, ⟨f.rateLimit, some c, t⟩)) ∧
    (f.rateLimit * (t - f.lastAcceptTime) < c - last →
      f.filter c t = (last, f)) := by
  obtain ⟨rl, la, lt⟩ := f
  cases h
  constructor <;> intro hb <;> simp only [energyFilter.filter] <;>
    split_ifs <;> first | rfl | linarith

/-- Witness for the amended C2: an in-budget increase 10 → 10.5 after ten
seconds at rate limit 1/10 is accepted. -/
theorem spec_C2_witness :
    (energyFilter.mk (1 / 10) (some 10) 0).filter (21 / 2) 10 =
      (21 / 2, ⟨1 / 10, some (21 / 2), 10⟩) :=
  (spec_C2 (energyFilter.mk (1 / 10) (some 10) 0) 10 (21 / 2) 10 rfl
    (by norm_num) (by norm_num)).1 (by norm_num)

/-- Claim C3: the first filter call accepts unconditionally and returns the
candidate; on any later call with `candidate ≤ 0` or
`candidate < lastAccepted` the filter returns `lastAccepted` with the state
(both `lastAccepted` and `lastAcceptTime`) unchanged; and over any sequence
of calls the returned values never decrease. -/
theorem spec_C3 :
    (∀ (f : energyFilter) (c t : ℚ), f.lastAccepted = none →
      f.filter c t = (c, ⟨f.rateLimit, some c, t⟩)) ∧
    (∀ (f : energyFilter) (last c t : ℚ), f.lastAccepted = some last →
      c ≤ 0 ∨ c < last → f.filter c t = (last, f)) ∧
    (∀ (f : energyFilter) (calls : List (ℚ × ℚ)),
      List.Chain' (· ≤ ·) (f.outputs calls)) := by
  refine ⟨?_, ?_, outputs_chain⟩
  · intro f c t h
    obtain ⟨rl, la, lt⟩ := f
    cases h
    rfl
  · intro f last c t h hrej
    obtain ⟨rl, la, lt⟩ := f
    cases h
    simp only [energyFilter.filter]
    split_ifs with h1 h2 h3 h4 <;>
      first | rfl | (exfalso; rcases hrej with h5 | h5 <;> linarith)

/-- Witness for C3: a fresh filter accepts its first candidate, a filter
holding 10 rejects the decreasing candidate 9 without touching its state,
and a concrete output sequence is non-decreasing. -/
theorem spec_C3_witness :
    (newEnergyFilter 1).filter 5 0 = (5, ⟨1, some 5, 0⟩) ∧
      (energyFilter.mk 1 (some 10) 0).filter 9 7 = (10, ⟨1, some 10, 0⟩) ∧
      List.Chain' (· ≤ ·) ((newEnergyFilter 1).outputs [(5, 0), (3, 10)]) :=
  ⟨spec_C3.1 (newEnergyFilter 1) 5 0 rfl,
   spec_C3.2.1 (energyFilter.mk 1 (some 10) 0) 10 9 7 rfl (Or.inr (by norm_num)),
   spec_C3.2.2 (newEnergyFilter 1) [(5, 0), (3, 10)]⟩

/-- The spec-modelled filter reproduces all five scenarios of the
repository's test `Test_energyFilter_filter` (calls spaced 10 seconds
apart, as in the test), with the internal rate limit instantiated to 1/10 —
the spec leaves the numeric relation between the constructor argument and
the rate limit open, asking only that the scenarios be reproduced. -/
theorem energyFilter_matches_repository_tests :
    (newEnergyFilter (1 / 10)).outputs
        [(10, 0), (10.01, 10), (10.02, 20), (10.03, 30)] =
        [10, 10.01, 10.02, 10.03] ∧
      (newEnergyFilter (1 / 10)).outputs [(10, 0), (10.01, 10), (9, 20)] =
        [10, 10.01, 10.01] ∧
      (newEnergyFilter (1 / 10)).outputs [(10, 0), (10, 10), (0, 20)] =
        [10, 10, 10] ∧
      (newEnergyFilter (1 / 10)).outputs [(10, 0), (20, 10)] = [10, 10] ∧
      (newEnergyFilter (1 / 10)).outputs
        [(10, 0), (10, 10), (10, 20), (10, 30), (10, 40), (10, 50), (10, 60),
          (10, 70), (10.5, 80)] = [10, 10, 10, 10, 10, 10, 10, 10, 10.5] := by
  refine ⟨?_, ?_, ?_, ?_, ?_⟩ <;>
    norm_num [energyFilter.outputs, energyFilter.filter, newEnergyFilter]

/-- Claim C8 (code bug): the claim — and the spec — say `Close()` blocks
until any in-flight poll cycle has completed, so that when `Close()`
returns no poll cycle is still running.  In the source, `Poller()` runs
`l.wg.Add(1)` with a deferred `l.wg.Done()` that fires when `Poller`
itself returns, immediately after spawning the polling goroutine; the
WaitGroup counter is therefore already zero when `Close()` runs
`close(l.stop); l.wg.Wait()`, and `Wait` returns at once.  This theorem
exhibits a reachable execution of the lifecycle model in which `Close()`
has returned while the goroutine is still inside `update()`. -/
theorem spec_C8_bug :
    ∃ s : SchedState, SchedReachable pollerStart s ∧
      s.closeReturned = true ∧ s.goroutine = GoState.inUpdate := by
  refine ⟨⟨.inUpdate, true, 0, true, true, false⟩, ?_, rfl, rfl⟩
  have h1 : SchedStep pollerStart ⟨.inSelect, false, 0, false, false, true⟩ :=
    SchedStep.tick pollerStart (by decide)
  have h2 : SchedStep ⟨.inSelect, false, 0, false, false, true⟩
      ⟨.inUpdate, false, 0, false, false, false⟩ :=
    SchedStep.selectTick ⟨.inSelect, false, 0, false, false, true⟩ rfl rfl
  have h3 : SchedStep ⟨.inUpdate, false, 0, false, false, false⟩
      ⟨.inUpdate, true, 0, true, false, false⟩ :=
    SchedStep.closeSignal ⟨.inUpdate, false, 0, false, false, false⟩ rfl
  have h4 : SchedStep ⟨.inUpdate, true, 0, true, false, false⟩
      ⟨.inUpdate, true, 0, true, true, false⟩ :=
    SchedStep.closeWait ⟨.inUpdate, true, 0, true, false, false⟩ rfl rfl rfl
  exact Relation.ReflTransGen.head h1 (Relation.ReflTransGen.head h2
    (Relation.ReflTransGen.head h3 (Relation.ReflTransGen.single h4)))

/-- The registration loop keeps everything registered before a failure: if
it returns an error, the final registry is the initial one plus exactly the
prefix of names preceding the duplicate, the duplicate's key is already in
the final registry, and every earlier name remains registered. -/
theorem registerAll_error (dev : String) :
    ∀ (names : List String) (reg reg2 : List (String × String)) (e : String),
      registerAll dev names reg = (.error e, reg2) →
      ∃ i, ∃ hi : i < names.length,
        reg2 = reg ++ (names.take i).map (fun n => (n, dev)) ∧
        (names.get ⟨i, hi⟩, dev) ∈ reg2 ∧
        ∀ j, j < i → ∀ hj : j < names.length, (names.get ⟨j, hj⟩, dev) ∈ reg2 := by
  intro names
  induction names with
  | nil => intro reg reg2 e h; simp [registerAll] at h
  | cons n rest ih =>
    intro reg reg2 e h
    by_cases hmem : (n, dev) ∈ reg
    · rw [registerAll, if_pos hmem] at h
      obtain ⟨he, hreg⟩ := Prod.mk.injEq .. ▸ h
      refine ⟨0, by simp, by simp [← hreg], ?_, ?_⟩
      · simpa [← hreg] using hmem
      · intro j hj
        omega
    · rw [registerAll, if_neg hmem] at h
      obtain ⟨i, hi, heq, hget, hprev⟩ := ih (reg ++ [(n, dev)]) reg2 e h
      refine ⟨i + 1, by simpa using hi, ?_, by simpa using hget, ?_⟩
      · rw [heq]
        simp
      · intro j hj hj2
        cases j with
        | zero =>
          rw [heq]
          simp
        | succ j2 =>
          exact hprev j2 (by omega) (by simpa using hj2)

/-- Claim C10: constructor failure is not atomic with respect to the global
registry.  If `New(client, deviceName)` fails because registering the
`i`-th name (one of the ten gauges or the error counter) hits a duplicate,
`New` returns no logger and an error, yet the final registry still equals
the initial registry extended by every name registered before the failure —
nothing is unregistered on the error path. -/
theorem spec_C10 (dev : String) (reg reg2 : List (String × String)) (e : String)
    (h : New dev reg = (.error e, reg2)) :
    ∃ i, ∃ hi : i < newRegistrationNames.length,
      reg2 = reg ++ (newRegistrationNames.take i).map (fun n => (n, dev)) ∧
      (newRegistrationNames.get ⟨i, hi⟩, dev) ∈ reg2 ∧
      ∀ j, j < i → ∀ hj : j < newRegistrationNames.length,
        (newRegistrationNames.get ⟨j, hj⟩, dev) ∈ reg2 :=
  registerAll_error dev newRegistrationNames reg reg2 e h

/-- Witness for C10: with `mains_current_a` already registered for the same
device label, `New` registers `mains_voltage_v`, fails on the second gauge,
and the registry keeps both the old entry and the just-registered voltage
gauge. -/
theorem spec_C10_witness :
    New "d" [("mains_current_a", "d")] =
        (.error "could not register gauge: mains_current_a",
          [("mains_current_a", "d"), ("mains_voltage_v", "d")]) ∧
      ∃ i, ∃ hi : i < newRegistrationNames.length,
        ([("mains_current_a", "d"), ("mains_voltage_v", "d")] :
            List (String × String)) =
          [("mains_current_a", "d")] ++
            (newRegistrationNames.take i).map (fun n => (n, "d")) ∧
        (newRegistrationNames.get ⟨i, hi⟩, "d") ∈
          ([("mains_current_a", "d"), ("mains_voltage_v", "d")] :
            List (String × String)) ∧
        ∀ j, j < i → ∀ hj : j < newRegistrationNames.length,
          (newRegistrationNames.get ⟨j, hj⟩, "d") ∈
            ([("mains_current_a", "d"), ("mains_voltage_v", "d")] :
              List (String × String)) :=
  ⟨rfl, spec_C10 "d" [("mains_current_a", "d")]
    [("mains_current_a", "d"), ("mains_voltage_v", "d")]
    "could not register gauge: mains_current_a" rfl⟩

end PowerLogger
